import Mathlib

/-!
Verification of the AnyGrasp WebSocket server (`server/main.py`).

The server accepts JSON messages `{points, colors, lims?}` on a WebSocket
session, runs grasp detection through the external AnyGrasp engine, applies
non-max suppression, score sorting and truncation, and replies with a list of
grasp dictionaries.  Errors inside the loop are caught by a generic handler
that sends `{"error": msg}` and disconnects the session.

Numbers on the wire are modelled as rationals (`ℚ`); the external engine
(`gsnet.AnyGrasp.get_grasp`) and the `graspnetAPI.GraspGroup` operations
`nms` and `sort_by_score` are not part of the served sources and are modelled
from the specification, as noted on each definition.
-/

/-- A grasp candidate as produced by the engine.  `height` and `object_id`
are optional because `prepare_grasp_data` probes them with `hasattr`. -/
structure Grasp where
  score : ℚ
  width : ℚ
  height : Option ℚ
  depth : ℚ
  translation : List ℚ
  rotation_matrix : List (List ℚ)
  object_id : Option Int
deriving DecidableEq

/-- One entry of the JSON success response (`main.py` lines 108-116). -/
structure GraspDict where
  score : ℚ
  width : ℚ
  height : ℚ
  depth : ℚ
  translation : List ℚ
  rotation_matrix : List (List ℚ)
  object_id : Int
deriving DecidableEq

/-- The dictionary built for one grasp in `prepare_grasp_data`
(`main.py` lines 108-116): `height` defaults to `0.03` and `object_id`
to `-1` when the attribute is absent; all other fields are copied. -/
def graspDict (g : Grasp) : GraspDict :=
  { score := g.score
    width := g.width
    height := g.height.getD (3/100)
    depth := g.depth
    translation := g.translation
    rotation_matrix := g.rotation_matrix
    object_id := g.object_id.getD (-1) }

/-- An incoming wire message after JSON parsing: the three fields the
handler reads (`main.py` lines 130-134), each possibly absent. -/
structure RawMsg where
  points : Option (List (List ℚ))
  colors : Option (List (List ℚ))
  lims : Option (List ℚ)
deriving DecidableEq

/-- The relevant part of the process environment, as read by `os.getenv`. -/
structure Env where
  CHECKPOINT_PATH : Option String
  MAX_GRIPPER_WIDTH : Option String
  GRIPPER_HEIGHT : Option String
  TOP_DOWN_GRASP : Option String
  DEBUG : Option String
  MAX_GRASPS : Option String
  HOST : Option String
  PORT : Option String
deriving DecidableEq

/-- `AnyGraspConfig.__init__` (`main.py` lines 36-40): the fields read from
the environment at construction time.  Numeric parsing of the gripper
geometry strings is kept symbolic (the raw string after defaulting). -/
structure AnyGraspConfig where
  checkpoint_path : Option String
  max_gripper_width : String
  gripper_height : String
  top_down_grasp : Bool
  debug : Bool
deriving DecidableEq

/-- Build the configuration from an environment (`main.py` lines 36-40). -/
def AnyGraspConfig.init (env : Env) : AnyGraspConfig :=
  { checkpoint_path := env.CHECKPOINT_PATH
    max_gripper_width := env.MAX_GRIPPER_WIDTH.getD "0.1"
    gripper_height := env.GRIPPER_HEIGHT.getD "0.03"
    top_down_grasp := (env.TOP_DOWN_GRASP.getD "false").toLower == "true"
    debug := (env.DEBUG.getD "false").toLower == "true" }

/-- `np.array(rows, dtype=np.float32)` on a nested numeric list: succeeds
for rectangular input, raises `ValueError` when the rows are ragged. -/
def np_array_f32 (rows : List (List ℚ)) : Except String (List (List ℚ)) :=
  match rows with
  | [] => .ok []
  | r :: rs =>
    if rs.all (fun x => x.length = r.length) then .ok (r :: rs)
    else .error "ValueError: ragged nested sequence"

/-- Decoding of `main.py` lines 130-131: `data["points"]` / `data["colors"]`
raise `KeyError` when absent, and each array is converted independently.
No comparison of the two lengths is performed. -/
def decode (m : RawMsg) : Except String (List (List ℚ) × List (List ℚ)) :=
  match m.points with
  | Option.none => .error "KeyError: points"
  | Option.some ps =>
    match m.colors with
    | Option.none => .error "KeyError: colors"
    | Option.some cs =>
      match np_array_f32 ps with
      | .error e => .error e
      | .ok ps' =>
        match np_array_f32 cs with
        | .error e => .error e
        | .ok cs' => .ok (ps', cs')

/-- The default workspace limits of `main.py` line 134. -/
def default_lims : List ℚ := [-19/100, 12/100, 2/100, 15/100, 0, 1]

/-- `data.get("lims", default)` (`main.py` line 134). -/
def get_lims (m : RawMsg) : List ℚ := m.lims.getD default_lims

/-- Modelled from the spec: whether some axis of a 6-tuple of workspace
limits has `min > max` (spec §4.2); any non-6-tuple is also invalid. -/
def has_invalid_axis (l : List ℚ) : Bool :=
  match l with
  | [x0, x1, y0, y1, z0, z1] => decide (x1 < x0) || decide (y1 < y0) || decide (z1 < z0)
  | _ => true

/-- The external grasp engine (`gsnet.AnyGrasp.get_grasp`): given points,
colors, limits and the three fixed option flags it returns grasp candidates
or fails.  The engine is an external collaborator, so it is a parameter. -/
def Engine : Type :=
  List (List ℚ) → List (List ℚ) → List ℚ → Bool → Bool → Bool →
    Except String (List Grasp)

/-- Modelled from the spec: `GraspGroup.nms` (graspnetAPI, not in the served
sources) eliminates candidates that are near-duplicates of a higher-scoring
candidate; the geometric proximity criterion is the engine's own and is a
parameter `dup`. -/
def nms (dup : Grasp → Grasp → Bool) (l : List Grasp) : List Grasp :=
  l.filter (fun g => !(l.any (fun h => dup h g && decide (g.score < h.score))))

/-- Modelled from the spec: one step of the stable descending insertion used
to realise `GraspGroup.sort_by_score` (sort descending by score, ties kept
in original order). -/
def insert_by_score (g : Grasp) : List Grasp → List Grasp
  | [] => [g]
  | h :: t => if g.score < h.score then h :: insert_by_score g t else g :: h :: t

/-- Modelled from the spec: `GraspGroup.sort_by_score` (graspnetAPI, not in
the served sources) sorts descending by score; ties broken by original
engine order (stable sort). -/
def sort_by_score (l : List Grasp) : List Grasp := l.foldr insert_by_score []

/-- `process_grasp` (`main.py` lines 77-95): call the engine with the fixed
option flags (`apply_object_mask=True, dense_grasp=False,
collision_detection=True`), then apply NMS and score sorting when the
result is non-empty.  The returned point cloud is discarded by the caller
and is not modelled. -/
def process_grasp (engine : Engine) (dup : Grasp → Grasp → Bool)
    (points colors : List (List ℚ)) (lims : List ℚ) :
    Except String (List Grasp) :=
  match engine points colors lims true false true with
  | .error e => .error e
  | .ok gg => .ok (if gg.length > 0 then sort_by_score (nms dup gg) else gg)

/-- A Python value in slice-end position: `gg[0:v]`. -/
inductive PyVal where
  | vNone : PyVal
  | vInt (n : Nat) : PyVal
  | vStr (s : String) : PyVal
deriving DecidableEq

/-- Python slicing `l[0:v]`: `None` keeps the whole list, an int truncates,
and a string raises `TypeError`. -/
def slice_to (v : PyVal) (l : List Grasp) : Except String (List Grasp) :=
  match v with
  | .vNone => .ok l
  | .vInt n => .ok (l.take n)
  | .vStr _ => .error "TypeError: slice indices must be integers or None"

/-- `prepare_grasp_data` (`main.py` lines 97-119): empty input yields `[]`;
otherwise the group is sliced to `gg[0:max_grasps]` and each grasp is
encoded as a dictionary.  The Python default for `max_grasps` is the
integer `20`, but the call site may pass any value. -/
def prepare_grasp_data (gg : List Grasp) (max_grasps : PyVal) :
    Except String (List GraspDict) :=
  if gg.length = 0 then .ok []
  else
    match slice_to max_grasps gg with
    | .error e => .error e
    | .ok gg_pick => .ok (gg_pick.map graspDict)

/-- `os.getenv("MAX_GRASPS")` as passed at `main.py` line 140: `None` when
the variable is unset, otherwise the raw string. -/
def env_max_grasps (env : Env) : PyVal :=
  match env.MAX_GRASPS with
  | Option.none => .vNone
  | Option.some s => .vStr s

/-- The body of one iteration of the WebSocket loop (`main.py` lines
127-142): decode, default the limits, run the engine pipeline, prepare the
response.  `env` is the process environment at the time the message is
handled, because `MAX_GRASPS` is read by `os.getenv` inside the loop. -/
def handle_message (env : Env) (engine : Engine) (dup : Grasp → Grasp → Bool)
    (m : RawMsg) : Except String (List GraspDict) :=
  match decode m with
  | .error e => .error e
  | .ok (points, colors) =>
    match process_grasp engine dup points colors (get_lims m) with
    | .error e => .error e
    | .ok gg => prepare_grasp_data gg (env_max_grasps env)

/-- One outgoing wire message: a JSON result list or `{"error": msg}`. -/
inductive WireOut where
  | result (r : List GraspDict) : WireOut
  | errorMsg (s : String) : WireOut
deriving DecidableEq

/-- The session loop of `grasp_websocket` (`main.py` lines 121-150) run over
a finite trace of incoming messages, each paired with the environment at the
time it is handled.  A successful iteration sends the result and loops; any
exception is caught by the generic handler, which sends `{"error": msg}`
and then disconnects the session, so the remaining messages are never
processed.  The end of the list is the client's own disconnect. -/
def session_loop (engine : Engine) (dup : Grasp → Grasp → Bool) :
    List (Env × RawMsg) → List WireOut
  | [] => []
  | (env, m) :: rest =>
    match handle_message env engine dup m with
    | .ok r => .result r :: session_loop engine dup rest
    | .error e => [.errorMsg e]

/-- The grasp-level post-processing pipeline applied to raw engine output:
NMS and score sorting from `process_grasp` (`main.py` lines 91-94) followed
by the truncation `gg[0:max_grasps]` of `prepare_grasp_data` (`main.py`
line 103) with an integer `maxCount`. -/
def process (dup : Grasp → Grasp → Bool) (maxCount : Nat) (l : List Grasp) :
    List Grasp :=
  (if l.length > 0 then sort_by_score (nms dup l) else l).take maxCount

/-- Descending-score order on grasps. -/
def score_ge (a b : Grasp) : Prop := b.score ≤ a.score

instance : DecidableRel score_ge :=
  fun a b => inferInstanceAs (Decidable (b.score ≤ a.score))

instance : IsTrans Grasp score_ge := ⟨fun _ _ _ h1 h2 => le_trans h2 h1⟩

/-! Concrete fixtures used by witnesses and counterexamples. -/

/-- A grasp with a given score and trivial geometry. -/
def gScore (q : ℚ) : Grasp :=
  { score := q, width := 0, height := Option.none, depth := 0,
    translation := [], rotation_matrix := [], object_id := Option.none }

/-- A grasp with score 1, no `height` and no `object_id` attribute. -/
def g0 : Grasp := gScore 1

/-- A grasp with score 1. -/
def gA : Grasp := gScore 1

/-- A grasp with score 2. -/
def gB : Grasp := gScore 2

/-- A grasp whose score is the natural number `n`. -/
def gN (n : Nat) : Grasp := gScore (n : ℚ)

/-- 21 pairwise distinct candidates with scores 0..20. -/
def raw21 : List Grasp := (List.range 21).map gN

/-- A duplicate criterion under which no two grasps are near-duplicates. -/
def dup0 : Grasp → Grasp → Bool := fun _ _ => false

/-- An environment with every variable unset. -/
def env0 : Env :=
  { CHECKPOINT_PATH := Option.none, MAX_GRIPPER_WIDTH := Option.none,
    GRIPPER_HEIGHT := Option.none, TOP_DOWN_GRASP := Option.none,
    DEBUG := Option.none, MAX_GRASPS := Option.none,
    HOST := Option.none, PORT := Option.none }

/-- `env0` with `MAX_GRASPS` set to the string `"20"`. -/
def envStr : Env := { env0 with MAX_GRASPS := Option.some "20" }

/-- `env0` with only `DEBUG` changed (same `MAX_GRASPS`). -/
def envDebug : Env := { env0 with DEBUG := Option.some "true" }

/-- A well-formed request with one point, one color and no `lims` field. -/
def msg0 : RawMsg :=
  { points := Option.some [[0, 0, 0]], colors := Option.some [[0, 0, 0]],
    lims := Option.none }

/-- A request with no `points` field. -/
def badMsg : RawMsg :=
  { points := Option.none, colors := Option.some [[0, 0, 0]],
    lims := Option.none }

/-- A request with two points but a single color. -/
def mismatchMsg : RawMsg :=
  { points := Option.some [[1, 2, 3], [4, 5, 6]],
    colors := Option.some [[0, 0, 0]], lims := Option.none }

/-- Workspace limits with `xmin = 1 > xmax = 0`. -/
def badLims : List ℚ := [1, 0, 0, 1, 0, 1]

/-- A well-formed request carrying the invalid limits `badLims`. -/
def limsMsg : RawMsg :=
  { points := Option.some [[0, 0, 0]], colors := Option.some [[0, 0, 0]],
    lims := Option.some badLims }

/-- A request whose point cloud is empty (`N = 0`). -/
def emptyMsg : RawMsg :=
  { points := Option.some [], colors := Option.some [], lims := Option.none }

/-- An engine that always returns the single candidate `g0`. -/
def eng1 : Engine := fun _ _ _ _ _ _ => .ok [g0]

/-- An engine that succeeds exactly when it is invoked on the mismatched
arrays of `mismatchMsg`, so a success response proves the engine was called
with those arrays. -/
def eng2 : Engine := fun p c _ _ _ _ =>
  if p = [[1, 2, 3], [4, 5, 6]] ∧ c = [[0, 0, 0]] then .ok [g0]
  else .error "engine: unexpected arguments"

/-- An engine that succeeds exactly when it receives the invalid limits
`badLims`, so a success response proves the limits reached the engine. -/
def eng3 : Engine := fun _ _ l _ _ _ =>
  if l = badLims then .ok [g0] else .error "engine: unexpected lims"

/-- An engine that succeeds exactly when it receives `default_lims`. -/
def engDef : Engine := fun _ _ l _ _ _ =>
  if l = default_lims then .ok [g0] else .error "engine: unexpected lims"

/-- An engine returning two candidates in ascending score order. -/
def engC : Engine := fun _ _ _ _ _ _ => .ok [gA, gB]

/-- An engine that always returns no candidates. -/
def engEmpty : Engine := fun _ _ _ _ _ _ => .ok []

/-- An engine returning the 21 candidates of `raw21`. -/
def eng21 : Engine := fun _ _ _ _ _ _ => .ok raw21

/-- The length of a success response, 0 for an error. -/
def resLen : Except String (List GraspDict) → Nat
  | .ok r => r.length
  | .error _ => 0

/-- A grasp carrying every attribute, including `height` and `object_id`. -/
def gFull : Grasp :=
  { score := 1, width := 2, height := Option.some 5, depth := 3,
    translation := [1, 2, 3],
    rotation_matrix := [[1, 0, 0], [0, 1, 0], [0, 0, 1]],
    object_id := Option.some 7 }

/-! Helper lemmas about the modelled NMS and sorting. -/

theorem mem_insert_by_score {x g : Grasp} :
    ∀ {l : List Grasp}, x ∈ insert_by_score g l → x = g ∨ x ∈ l := by
  intro l
  induction l with
  | nil =>
    intro h
    simp only [insert_by_score, List.mem_singleton] at h
    exact Or.inl h
  | cons a t ih =>
    intro h
    by_cases hc : g.score < a.score
    · simp only [insert_by_score, if_pos hc] at h
      rcases List.mem_cons.mp h with rfl | h'
      · exact Or.inr (List.mem_cons_self _ _)
      · rcases ih h' with rfl | h''
        · exact Or.inl rfl
        · exact Or.inr (List.mem_cons_of_mem _ h'')
    · simp only [insert_by_score, if_neg hc] at h
      rcases List.mem_cons.mp h with rfl | h'
      · exact Or.inl rfl
      · exact Or.inr h'

theorem pairwise_insert_by_score {g : Grasp} :
    ∀ {l : List Grasp}, l.Pairwise score_ge →
      (insert_by_score g l).Pairwise score_ge := by
  intro l
  induction l with
  | nil => intro _; exact List.pairwise_singleton _ _
  | cons a t ih =>
    intro hp
    rcases List.pairwise_cons.mp hp with ⟨ha, ht⟩
    by_cases hc : g.score < a.score
    · simp only [insert_by_score, if_pos hc]
      refine List.pairwise_cons.mpr ⟨?_, ih ht⟩
      intro x hx
      rcases mem_insert_by_score hx with rfl | hx'
      · exact le_of_lt hc
      · exact ha x hx'
    · simp only [insert_by_score, if_neg hc]
      refine List.pairwise_cons.mpr ⟨?_, List.pairwise_cons.mpr ⟨ha, ht⟩⟩
      intro x hx
      rcases List.mem_cons.mp hx with rfl | hx'
      · exact not_lt.mp hc
      · exact le_trans (ha x hx') (not_lt.mp hc)

theorem pairwise_sort_by_score : ∀ (l : List Grasp),
    (sort_by_score l).Pairwise score_ge := by
  intro l
  induction l with
  | nil => exact List.Pairwise.nil
  | cons a t ih => exact pairwise_insert_by_score ih

theorem sort_by_score_eq_of_sorted :
    ∀ {l : List Grasp}, l.Pairwise score_ge → sort_by_score l = l := by
  intro l
  induction l with
  | nil => intro _; rfl
  | cons a t ih =>
    intro hp
    rcases List.pairwise_cons.mp hp with ⟨ha, ht⟩
    have hs : sort_by_score (a :: t) = insert_by_score a (sort_by_score t) := rfl
    rw [hs, ih ht]
    cases t with
    | nil => rfl
    | cons b t' =>
      have hb : ¬ a.score < b.score := not_lt.mpr (ha b (List.mem_cons_self _ _))
      simp only [insert_by_score, if_neg hb]

theorem filter_insert_by_score (c : ℚ) (g : Grasp) :
    ∀ (l : List Grasp),
      (insert_by_score g l).filter (fun x => decide (x.score = c)) =
        if g.score = c
        then g :: l.filter (fun x => decide (x.score = c))
        else l.filter (fun x => decide (x.score = c)) := by
  intro l
  induction l with
  | nil =>
    by_cases hg : g.score = c <;>
      simp [insert_by_score, List.filter, hg]
  | cons h t ih =>
    by_cases hc : g.score < h.score
    · simp only [insert_by_score, if_pos hc]
      by_cases hh : h.score = c
      · have hg : ¬ g.score = c := by
          intro he
          rw [he, hh] at hc
          exact lt_irrefl _ hc
        simp [List.filter_cons, hh, hg, ih]
      · simp [List.filter_cons, hh, ih]
    · simp only [insert_by_score, if_neg hc]
      by_cases hg : g.score = c <;> simp [List.filter_cons, hg]

theorem sort_by_score_stable_filter (c : ℚ) : ∀ (l : List Grasp),
    (sort_by_score l).filter (fun x => decide (x.score = c)) =
      l.filter (fun x => decide (x.score = c)) := by
  intro l
  induction l with
  | nil => rfl
  | cons a t ih =>
    have hs : sort_by_score (a :: t) = insert_by_score a (sort_by_score t) := rfl
    rw [hs, filter_insert_by_score, ih]
    by_cases ha : a.score = c <;> simp [List.filter_cons, ha]

theorem pairwise_nms_sort (dup : Grasp → Grasp → Bool) (gg : List Grasp) :
    (if gg.length > 0 then sort_by_score (nms dup gg) else gg).Pairwise score_ge := by
  by_cases h : gg.length > 0
  · rw [if_pos h]; exact pairwise_sort_by_score _
  · rw [if_neg h]
    have h0 : gg = [] := List.length_eq_zero.mp (Nat.eq_zero_of_not_pos h)
    rw [h0]; exact List.Pairwise.nil

theorem prepare_pairwise {gg : List Grasp} (hgg : gg.Pairwise score_ge)
    (v : PyVal) {r : List GraspDict}
    (h : prepare_grasp_data gg v = .ok r) :
    r.Pairwise (fun a b : GraspDict => b.score ≤ a.score) := by
  unfold prepare_grasp_data at h
  by_cases h0 : gg.length = 0
  · rw [if_pos h0] at h
    cases h
    exact List.Pairwise.nil
  · rw [if_neg h0] at h
    cases v with
    | vNone =>
      simp only [slice_to] at h
      cases h
      exact List.pairwise_map.mpr (hgg.imp (fun hab => hab))
    | vInt n =>
      simp only [slice_to] at h
      cases h
      exact List.pairwise_map.mpr
        ((List.Pairwise.sublist (List.take_sublist n gg) hgg).imp (fun hab => hab))
    | vStr s =>
      simp only [slice_to] at h
      exact Except.noConfusion h

/-- Inversion for `process_grasp`: a successful result is always sorted by
descending score. -/
theorem process_grasp_ok_pairwise {engine : Engine} {dup : Grasp → Grasp → Bool}
    {ps cs : List (List ℚ)} {lims : List ℚ} {gg : List Grasp}
    (h : process_grasp engine dup ps cs lims = .ok gg) :
    gg.Pairwise score_ge := by
  unfold process_grasp at h
  cases he : engine ps cs lims true false true with
  | error e => rw [he] at h; exact Except.noConfusion h
  | ok g1 =>
    rw [he] at h
    cases h
    exact pairwise_nms_sort dup g1

/-- C1 (counterexample): the claim says a pipeline-stage error leaves the
session open, returning to await the next message.  On the code, a decode
error on the first message makes the generic handler send the error wire
message and then disconnect: the following well-formed message — which the
handler answers successfully when reached — receives no response because
the loop has terminated. -/
theorem c1_session_stays_open_counterexample :
    handle_message env0 eng1 dup0 msg0 = .ok [graspDict g0] ∧
    session_loop eng1 dup0 [(env0, badMsg), (env0, msg0)] =
      [.errorMsg "KeyError: points"] :=
  ⟨rfl, rfl⟩

/-- C1 (amended): any pipeline-stage error while handling a message is
converted into the error wire message `{"error": msg}` sent on the same
session, after which the handler disconnects: the session loop terminates
and no further messages are processed.  The loop is a total function, so
the error never crashes the process. -/
theorem c1_error_reported_then_session_closed
    (engine : Engine) (dup : Grasp → Grasp → Bool) (env : Env) (m : RawMsg)
    (rest : List (Env × RawMsg)) (e : String)
    (h : handle_message env engine dup m = .error e) :
    session_loop engine dup ((env, m) :: rest) = [.errorMsg e] := by
  simp only [session_loop, h]

/-- C1 (witness): the amended theorem applied to a key-error message
followed by a well-formed message on the same session. -/
theorem c1_error_reported_then_session_closed_witness :
    handle_message env0 eng1 dup0 badMsg = .error "KeyError: points" ∧
    session_loop eng1 dup0 [(env0, badMsg), (env0, msg0)] =
      [.errorMsg "KeyError: points"] :=
  ⟨rfl, c1_error_reported_then_session_closed eng1 dup0 env0 badMsg
      [(env0, msg0)] "KeyError: points" rfl⟩

/-- C2 (counterexample): a request with two points but a single color is
not rejected as a shape mismatch: it decodes successfully, and the engine
is invoked — `eng2` succeeds only on exactly these mismatched arrays, so
the success response proves the call happened. -/
theorem c2_shape_mismatch_counterexample :
    ([[1, 2, 3], [4, 5, 6]] : List (List ℚ)).length ≠
      ([[0, 0, 0]] : List (List ℚ)).length ∧
    decode mismatchMsg = .ok ([[1, 2, 3], [4, 5, 6]], [[0, 0, 0]]) ∧
    handle_message env0 eng2 dup0 mismatchMsg = .ok [graspDict g0] :=
  ⟨by decide, rfl, rfl⟩

/-- C2 (amended): the handler performs no length-equality check: a request
whose rectangular points and colors arrays have different lengths decodes
successfully, and the response is determined by the engine's output on
exactly those two arrays — the engine is invoked, and any failure surfaces
only through the generic error path. -/
theorem c2_mismatch_decodes_and_reaches_engine
    (env : Env) (engine : Engine) (dup : Grasp → Grasp → Bool)
    (ps cs : List (List ℚ)) (l : Option (List ℚ))
    (h1 : np_array_f32 ps = .ok ps) (h2 : np_array_f32 cs = .ok cs)
    (hne : ps.length ≠ cs.length) :
    decode { points := Option.some ps, colors := Option.some cs, lims := l } =
      .ok (ps, cs) ∧
    ∀ gg, engine ps cs
        (get_lims { points := Option.some ps, colors := Option.some cs, lims := l })
        true false true = .ok gg →
      handle_message env engine dup
          { points := Option.some ps, colors := Option.some cs, lims := l } =
        prepare_grasp_data
          (if gg.length > 0 then sort_by_score (nms dup gg) else gg)
          (env_max_grasps env) := by
  have hd : decode { points := Option.some ps, colors := Option.some cs, lims := l } =
      .ok (ps, cs) := by
    simp only [decode, h1, h2]
  refine ⟨hd, ?_⟩
  intro gg hgg
  simp only [handle_message, hd, process_grasp, hgg]

/-- C2 (witness): the amended theorem applied to the two-points-one-color
request. -/
theorem c2_mismatch_decodes_and_reaches_engine_witness :
    np_array_f32 [[1, 2, 3], [4, 5, 6]] = .ok [[1, 2, 3], [4, 5, 6]] ∧
    np_array_f32 [[0, 0, 0]] = .ok [[0, 0, 0]] ∧
    ([[1, 2, 3], [4, 5, 6]] : List (List ℚ)).length ≠
      ([[0, 0, 0]] : List (List ℚ)).length ∧
    decode mismatchMsg = .ok ([[1, 2, 3], [4, 5, 6]], [[0, 0, 0]]) :=
  ⟨rfl, rfl, by decide,
    (c2_mismatch_decodes_and_reaches_engine env0 eng2 dup0
      [[1, 2, 3], [4, 5, 6]] [[0, 0, 0]] Option.none rfl rfl (by decide)).1⟩

/-- C3 (counterexample): workspace limits with `xmin = 1 > xmax = 0`
produce no `ConfigError`: the engine is invoked with them — `eng3`
succeeds only when it receives exactly `badLims`, so the success response
proves the invalid limits reached the engine. -/
theorem c3_invalid_lims_counterexample :
    has_invalid_axis badLims = true ∧
    handle_message env0 eng3 dup0 limsMsg = .ok [graspDict g0] :=
  ⟨rfl, rfl⟩

/-- C3 (amended): the handler never validates workspace limits: whatever
`lims` value a request carries — including one with `min > max` on an
axis — is handed to the engine unchanged, and the response is determined
by the engine's output on it; no error is raised before the engine call. -/
theorem c3_invalid_lims_passed_to_engine
    (env : Env) (engine : Engine) (dup : Grasp → Grasp → Bool)
    (ps cs : List (List ℚ)) (lims : List ℚ)
    (h1 : np_array_f32 ps = .ok ps) (h2 : np_array_f32 cs = .ok cs)
    (hinv : has_invalid_axis lims = true) :
    get_lims { points := Option.some ps, colors := Option.some cs,
               lims := Option.some lims } = lims ∧
    ∀ gg, engine ps cs lims true false true = .ok gg →
      handle_message env engine dup
          { points := Option.some ps, colors := Option.some cs,
            lims := Option.some lims } =
        prepare_grasp_data
          (if gg.length > 0 then sort_by_score (nms dup gg) else gg)
          (env_max_grasps env) := by
  have hd : decode { points := Option.some ps, colors := Option.some cs,
                     lims := Option.some lims } = .ok (ps, cs) := by
    simp only [decode, h1, h2]
  refine ⟨rfl, ?_⟩
  intro gg hgg
  simp only [handle_message, hd, process_grasp, get_lims, Option.getD, hgg]

/-- C3 (witness): the amended theorem applied to the invalid limits
`badLims`. -/
theorem c3_invalid_lims_passed_to_engine_witness :
    np_array_f32 [[0, 0, 0]] = .ok [[0, 0, 0]] ∧
    has_invalid_axis badLims = true ∧
    get_lims limsMsg = badLims :=
  ⟨rfl, rfl,
    (c3_invalid_lims_passed_to_engine env0 eng3 dup0
      [[0, 0, 0]] [[0, 0, 0]] badLims rfl rfl rfl).1⟩

/-- C4 (code_bug evaluation): `main.py` line 140 passes
`os.getenv("MAX_GRASPS")` — a string or `None` — where `prepare_grasp_data`
expects its integer `max_grasps` (default 20).  With the variable unset the
slice bound is `None` and no truncation happens: an engine output of 21
distinct candidates yields a 21-element response, violating the claimed
`len(result) <= maxCount = 20` and `= min(len after NMS, maxCount) = 20`.
With the variable set to `"20"` the slice raises `TypeError` instead of
truncating. -/
theorem c4_no_truncation_when_env_unset :
    resLen (handle_message env0 eng21 dup0 msg0) = 21 ∧
    ¬ resLen (handle_message env0 eng21 dup0 msg0) ≤ 20 ∧
    handle_message envStr eng21 dup0 msg0 =
      .error "TypeError: slice indices must be integers or None" :=
  ⟨by decide, by decide, rfl⟩

/-- C5 (counterexample): two identical requests on one session, with the
process environment changing between them, receive different responses:
`MAX_GRASPS` is read by `os.getenv` inside the message loop on every
request, not once at process start. -/
theorem c5_config_read_once_counterexample :
    env0.MAX_GRASPS ≠ envStr.MAX_GRASPS ∧
    session_loop eng1 dup0 [(env0, msg0), (envStr, msg0)] =
      [.result [graspDict g0],
       .errorMsg "TypeError: slice indices must be integers or None"] :=
  ⟨by decide, rfl⟩

/-- C5 (amended): the startup configuration (checkpoint path, gripper
geometry, top-down mode, debug flag) is fixed when `AnyGraspConfig` is
built at process start; the message handler, however, re-reads
`MAX_GRASPS` per request, and that is its only request-time environment
dependence: two request-time environments agreeing on `MAX_GRASPS` always
produce identical responses. -/
theorem c5_handler_reads_only_max_grasps
    (e1 e2 : Env) (engine : Engine) (dup : Grasp → Grasp → Bool) (m : RawMsg)
    (h : e1.MAX_GRASPS = e2.MAX_GRASPS) :
    handle_message e1 engine dup m = handle_message e2 engine dup m := by
  have hv : env_max_grasps e1 = env_max_grasps e2 := by
    unfold env_max_grasps
    rw [h]
  simp only [handle_message, hv]

/-- C5 (witness): environments differing only in `DEBUG` give the same
response. -/
theorem c5_handler_reads_only_max_grasps_witness :
    env0.MAX_GRASPS = envDebug.MAX_GRASPS ∧
    handle_message env0 eng1 dup0 msg0 = handle_message envDebug eng1 dup0 msg0 :=
  ⟨rfl, c5_handler_reads_only_max_grasps env0 envDebug eng1 dup0 msg0 rfl⟩

/-- C6: every success response is ordered by descending score — adjacent
entries satisfy `result[i].score >= result[i+1].score` — and the modelled
stable sort keeps ties in the engine's original order: selecting the
candidates of any one score value out of the sorted sequence returns them
in their input order. -/
theorem c6_result_sorted_desc_and_stable :
    (∀ (env : Env) (engine : Engine) (dup : Grasp → Grasp → Bool) (m : RawMsg)
        (r : List GraspDict), handle_message env engine dup m = .ok r →
        List.Chain' (fun a b : GraspDict => b.score ≤ a.score) r) ∧
    (∀ (c : ℚ) (l : List Grasp),
        (sort_by_score l).filter (fun x => decide (x.score = c)) =
          l.filter (fun x => decide (x.score = c))) := by
  refine ⟨?_, sort_by_score_stable_filter⟩
  intro env engine dup m r h
  unfold handle_message at h
  cases hd : decode m with
  | error e => rw [hd] at h; exact Except.noConfusion h
  | ok pc =>
    obtain ⟨ps, cs⟩ := pc
    simp only [hd] at h
    cases hp : process_grasp engine dup ps cs (get_lims m) with
    | error e => rw [hp] at h; exact Except.noConfusion h
    | ok gg =>
      rw [hp] at h
      exact (prepare_pairwise (process_grasp_ok_pairwise hp) _ h).chain'

/-- C6 (witness): an engine returning scores `[1, 2]` yields the response
reordered to scores `[2, 1]`, which is descending. -/
theorem c6_result_sorted_desc_and_stable_witness :
    handle_message env0 engC dup0 msg0 = .ok [graspDict gB, graspDict gA] ∧
    List.Chain' (fun a b : GraspDict => b.score ≤ a.score)
      [graspDict gB, graspDict gA] :=
  ⟨rfl, c6_result_sorted_desc_and_stable.1 env0 engC dup0 msg0
      [graspDict gB, graspDict gA] rfl⟩

/-- C7: the post-processing pipeline (NMS, stable descending sort,
truncation to `maxCount`) is idempotent: on a sequence that is already
deduplicated (NMS-invariant), sorted descending by score, and within the
`maxCount` bound, `process (process x) = process x`. -/
theorem c7_post_processing_idempotent
    (dup : Grasp → Grasp → Bool) (maxCount : Nat) (x : List Grasp)
    (h1 : nms dup x = x) (h2 : x.Pairwise score_ge)
    (h3 : x.length ≤ maxCount) :
    process dup maxCount (process dup maxCount x) = process dup maxCount x := by
  have hx : process dup maxCount x = x := by
    unfold process
    by_cases h0 : x.length > 0
    · rw [if_pos h0, h1, sort_by_score_eq_of_sorted h2, List.take_of_length_le h3]
    · rw [if_neg h0]
      exact List.take_of_length_le h3
  rw [hx]
  exact hx

/-- C7 (witness): the idempotence theorem applied to the two-candidate
sequence with scores `[2, 1]`. -/
theorem c7_post_processing_idempotent_witness :
    nms dup0 [gB, gA] = [gB, gA] ∧
    ([gB, gA] : List Grasp).Pairwise score_ge ∧
    ([gB, gA] : List Grasp).length ≤ 20 ∧
    process dup0 20 (process dup0 20 [gB, gA]) = process dup0 20 [gB, gA] :=
  ⟨rfl, by decide, by decide,
    c7_post_processing_idempotent dup0 20 [gB, gA] rfl (by decide) (by decide)⟩

/-- C8: when a request omits `lims`, the handler substitutes exactly
`[-0.19, 0.12, 0.02, 0.15, 0.0, 1.0]`, and the engine is called with that
list: the response is determined by the engine's output at it. -/
theorem c8_default_lims_substituted
    (env : Env) (engine : Engine) (dup : Grasp → Grasp → Bool)
    (ps cs : List (List ℚ))
    (h1 : np_array_f32 ps = .ok ps) (h2 : np_array_f32 cs = .ok cs) :
    get_lims { points := Option.some ps, colors := Option.some cs,
               lims := Option.none } =
      [-19/100, 12/100, 2/100, 15/100, 0, 1] ∧
    ∀ gg, engine ps cs [-19/100, 12/100, 2/100, 15/100, 0, 1]
        true false true = .ok gg →
      handle_message env engine dup
          { points := Option.some ps, colors := Option.some cs,
            lims := Option.none } =
        prepare_grasp_data
          (if gg.length > 0 then sort_by_score (nms dup gg) else gg)
          (env_max_grasps env) := by
  have hl : get_lims { points := Option.some ps, colors := Option.some cs,
                       lims := Option.none } =
      [-19/100, 12/100, 2/100, 15/100, 0, 1] := rfl
  have hd : decode { points := Option.some ps, colors := Option.some cs,
                     lims := Option.none } = .ok (ps, cs) := by
    simp only [decode, h1, h2]
  refine ⟨hl, ?_⟩
  intro gg hgg
  simp only [handle_message, hd, process_grasp, hl, hgg]

/-- C8 (witness): with `engDef`, which succeeds only at the default limits,
the request without `lims` gets the engine's output — so the default list
was passed to the engine exactly. -/
theorem c8_default_lims_substituted_witness :
    np_array_f32 [[0, 0, 0]] = .ok [[0, 0, 0]] ∧
    get_lims msg0 = [-19/100, 12/100, 2/100, 15/100, 0, 1] ∧
    handle_message env0 engDef dup0 msg0 =
      prepare_grasp_data
        (if ([g0] : List Grasp).length > 0
         then sort_by_score (nms dup0 [g0]) else [g0])
        (env_max_grasps env0) :=
  ⟨rfl,
    (c8_default_lims_substituted env0 engDef dup0
      [[0, 0, 0]] [[0, 0, 0]] rfl rfl).1,
    (c8_default_lims_substituted env0 engDef dup0
      [[0, 0, 0]] [[0, 0, 0]] rfl rfl).2 [g0] (by simp [engDef, default_lims])⟩

/-- C9: whenever the engine returns an empty candidate sequence — in
particular for the empty (`N = 0`) point cloud, where per spec §8 the
external engine yields no candidates — the pipeline produces the empty
result list as a success response, not an error. -/
theorem c9_empty_engine_output_empty_result
    (env : Env) (engine : Engine) (dup : Grasp → Grasp → Bool) (m : RawMsg)
    (ps cs : List (List ℚ))
    (hd : decode m = .ok (ps, cs))
    (he : engine ps cs (get_lims m) true false true = .ok []) :
    handle_message env engine dup m = .ok [] := by
  simp only [handle_message, hd, process_grasp, he]
  rfl

/-- C9 (witness): the empty request with an engine returning no candidates
yields the empty success response. -/
theorem c9_empty_engine_output_empty_result_witness :
    decode emptyMsg = .ok ([], []) ∧
    engEmpty [] [] (get_lims emptyMsg) true false true = .ok [] ∧
    handle_message env0 engEmpty dup0 emptyMsg = .ok [] :=
  ⟨rfl, rfl,
    c9_empty_engine_output_empty_result env0 engEmpty dup0 emptyMsg [] [] rfl rfl⟩

/-- C10: in the encoded response entry for a candidate, a missing `height`
attribute is reported as the fixed value `0.03` and a missing `object_id`
as `-1`; present attributes and all other fields are copied unchanged. -/
theorem c10_height_object_id_defaults (g : Grasp) :
    (g.height = Option.none → (graspDict g).height = 3/100) ∧
    (g.object_id = Option.none → (graspDict g).object_id = -1) ∧
    (∀ q, g.height = Option.some q → (graspDict g).height = q) ∧
    (∀ i, g.object_id = Option.some i → (graspDict g).object_id = i) ∧
    (graspDict g).score = g.score ∧
    (graspDict g).width = g.width ∧
    (graspDict g).depth = g.depth ∧
    (graspDict g).translation = g.translation ∧
    (graspDict g).rotation_matrix = g.rotation_matrix := by
  refine ⟨?_, ?_, ?_, ?_, rfl, rfl, rfl, rfl, rfl⟩
  · intro h; simp [graspDict, h]
  · intro h; simp [graspDict, h]
  · intro q h; simp [graspDict, h]
  · intro i h; simp [graspDict, h]

/-- C10 (witness): a candidate with no `height`/`object_id` gets the fixed
defaults; a candidate carrying them keeps its values. -/
theorem c10_height_object_id_defaults_witness :
    g0.height = Option.none ∧ (graspDict g0).height = 3/100 ∧
    g0.object_id = Option.none ∧ (graspDict g0).object_id = -1 ∧
    (graspDict gFull).height = 5 ∧ (graspDict gFull).object_id = 7 :=
  ⟨rfl, (c10_height_object_id_defaults g0).1 rfl, rfl,
    (c10_height_object_id_defaults g0).2.1 rfl,
    (c10_height_object_id_defaults gFull).2.2.1 5 rfl,
    (c10_height_object_id_defaults gFull).2.2.2.1 7 rfl⟩
